import Mathlib

/-!
# A verification development for the Argon2 source package

This file gives a shallow embedding, in Lean 4, of the parts of the Argon2
password-hashing package relevant to its specification: the internal
constants and the variant enumeration of `Source/Core/argon2-core.h`, the
public entry points, the `PHS` convenience entry and the error-message
table of `Source/Argon2/argon2.c`, and the test-vector generation harness
of `Source/Test/argon2-test.c`.

Machine integers are modelled as `Nat` with explicit reductions modulo
`2 ^ 64` or `2 ^ 32` where the C code relies on fixed-width arithmetic.
C pointers that may be `NULL` are modelled as `Option`; the contents of a
byte buffer is a `List Nat`.  The body of `Argon2Core` (and everything
else defined in `argon2-core.c`, which is not part of the sources at
hand) is treated as an abstract function parameter, or is modelled from
the specification where a claim needs its structure; every such
definition carries a doc comment starting with `Modelled from the spec:`.
-/

/-! ## Constants from Source/Core/argon2-core.h -/

/-- `enum { VERSION_NUMBER = 0x10 }` — version of the algorithm. -/
def VERSION_NUMBER : Nat := 0x10

/-- `enum { BLOCK_SIZE = 1024 }` — memory block size in bytes. -/
def BLOCK_SIZE : Nat := 1024

/-- `enum { WORDS_IN_BLOCK = BLOCK_SIZE / sizeof (uint64_t) }` with
`sizeof (uint64_t) = 8`. -/
def WORDS_IN_BLOCK : Nat := BLOCK_SIZE / 8

/-- `enum { QWORDS_IN_BLOCK = WORDS_IN_BLOCK / 2 }`. -/
def QWORDS_IN_BLOCK : Nat := WORDS_IN_BLOCK / 2

/-- `enum { ADDRESSES_IN_BLOCK = (BLOCK_SIZE * sizeof (uint8_t) / sizeof (uint64_t)) }`
with `sizeof (uint8_t) = 1` and `sizeof (uint64_t) = 8`.  Per the header
comment, this is the number of pseudo-random values generated by one call
to Blake in Argon2i to generate reference block positions. -/
def ADDRESSES_IN_BLOCK : Nat := BLOCK_SIZE * 1 / 8

/-- `enum { SBOX_SIZE = 1 << 10 }`. -/
def SBOX_SIZE : Nat := 2 ^ 10

/-- `enum { SBOX_MASK = SBOX_SIZE / 2 - 1 }`. -/
def SBOX_MASK : Nat := SBOX_SIZE / 2 - 1

/-- `enum Argon2_type` from `argon2-core.h`: the five Argon2 variants plus
the `MAX_ARGON2_TYPE` sentinel. -/
inductive Argon2_type where
  | Argon2_d
  | Argon2_i
  | Argon2_di
  | Argon2_id
  | Argon2_ds
  | MAX_ARGON2_TYPE
deriving DecidableEq, Repr

/-- The numeric value the C `enum Argon2_type` assigns to each enumerator
(`Argon2_d=0, Argon2_i=1, Argon2_di=2, Argon2_id=3, Argon2_ds=4`, and the
sentinel one past the last). -/
def Argon2_type.val : Argon2_type → Nat
  | .Argon2_d => 0
  | .Argon2_i => 1
  | .Argon2_di => 2
  | .Argon2_id => 3
  | .Argon2_ds => 4
  | .MAX_ARGON2_TYPE => 5

/-! ## The context structure

`Argon2_Context` is declared in `argon2.h` (not among the sources); its
fields and their order are fixed by the designated initializer in `PHS`
(`argon2.c`) together with the positional initializer in
`GenerateTestVectors` (`argon2-test.c`).  A byte buffer pointer is
`Option (List Nat)` (`none` is `NULL`); the allocator callbacks are kept
abstract as `Option Unit` (`none` is `NULL`). -/

structure Argon2_Context where
  out : Option (List Nat)
  outlen : Nat
  pwd : Option (List Nat)
  pwdlen : Nat
  salt : Option (List Nat)
  saltlen : Nat
  secret : Option (List Nat)
  secretlen : Nat
  ad : Option (List Nat)
  adlen : Nat
  t_cost : Nat
  m_cost : Nat
  lanes : Nat
  allocate_cbk : Option Unit
  free_cbk : Option Unit
  clear_password : Bool
  clear_secret : Bool
  clear_memory : Bool
deriving Repr

/-- The type of the (abstract) core computation `Argon2Core`, whose body
lives in `argon2-core.c`, outside the sources at hand: it takes the
context and the variant selector and returns an `int` error code. -/
def CoreFn : Type := Argon2_Context → Argon2_type → Int

/-! ## Error codes and messages

The `Argon2_ErrorCodes` enumeration is declared in `argon2.h`, which is
not among the sources. -/

/-- Modelled from the spec: the `Argon2_ErrorCodes` enumeration of
`argon2.h` (absent from the sources) is a flat enumeration starting at
`ARGON2_OK = 0`; the kinds and their order follow the spec's §7 listing,
which coincides with the order of the designated initializers of
`Argon2_ErrorMessage` in `argon2.c`. -/
def ARGON2_OK : Nat := 0

/-- Modelled from the spec: see `ARGON2_OK`. -/
def ARGON2_OUTPUT_PTR_NULL : Nat := 1

/-- Modelled from the spec: see `ARGON2_OK`. -/
def ARGON2_OUTPUT_TOO_LONG : Nat := 3

/-- Modelled from the spec: see `ARGON2_OK`. -/
def ARGON2_INCORRECT_PARAMETER : Nat := 25

/-- Modelled from the spec: see `ARGON2_OK`. -/
def ARGON2_INCORRECT_TYPE : Nat := 26

/-- Modelled from the spec: see `ARGON2_OK`; one past the last error code,
so the 28 codes are `0 ≤ code < 28`. -/
def ARGON2_ERROR_CODES_LENGTH : Nat := 28

/-- The static message table `Argon2_ErrorMessage` of `argon2.c`: its 28
designated initializers, listed in index order (the `"Associated date"`
typo at index 9 is the source's). -/
def Argon2_ErrorMessage : List String :=
  [ "OK",
    "Output pointer is NULL",
    "Output is too short",
    "Output is too long",
    "Password is too short",
    "Password is too long",
    "Salt is too short",
    "Salt is too long",
    "Associated data is too short",
    "Associated date is too long",
    "Secret is too short",
    "Secret is too long",
    "Time cost is too small",
    "Time cost is too large",
    "Memory cost is too small",
    "Memory cost is too large",
    "Too few lanes",
    "Too many lanes",
    "Password pointer is NULL, but password length is not 0",
    "Salt pointer is NULL, but salt length is not 0",
    "Secret pointer is NULL, but secret length is not 0",
    "Associated data pointer is NULL, but ad length is not 0",
    "Memory allocation error",
    "The free memory callback is NULL",
    "The allocate memory callback is NULL",
    "Argon2_Context context is NULL",
    "There is no such version of Argon2",
    "Output pointer mismatch" ]

/-- `ErrorMessage` from `argon2.c`:
`if (error_code < ARGON2_ERROR_CODES_LENGTH) return Argon2_ErrorMessage[error_code];
return "Unknown error code.";`.
The unchecked C array access is modelled as an `Option` lookup that is
`none` outside the array bounds (in particular at the negative indices the
bounds check fails to exclude). -/
def ErrorMessage (error_code : Int) : Option String :=
  if error_code < (ARGON2_ERROR_CODES_LENGTH : Int) then
    if 0 ≤ error_code then Argon2_ErrorMessage.get? error_code.toNat else none
  else
    some "Unknown error code."

/-! ## Public entry points (Source/Argon2/argon2.c) -/

/-- The context `PHS` builds with its designated initializer (fields not
mentioned there — the two allocator callbacks — are zero-initialized,
i.e. `NULL`). -/
def PHS_context (out : Option (List Nat)) (outlen : Nat) (pwd_in : Option (List Nat))
    (inlen : Nat) (salt : Option (List Nat)) (saltlen : Nat)
    (t_cost : Nat) (m_cost : Nat) : Argon2_Context :=
  { out := out
    outlen := outlen
    pwd := pwd_in
    pwdlen := inlen
    salt := salt
    saltlen := saltlen
    secret := none
    secretlen := 0
    ad := none
    adlen := 0
    t_cost := t_cost
    m_cost := m_cost
    lanes := 1
    allocate_cbk := none
    free_cbk := none
    clear_password := true
    clear_secret := true
    clear_memory := false }

/-- `PHS` from `argon2.c`: builds the context above and returns
`Argon2Core(&context, Argon2_d)`. -/
def PHS (Argon2Core : CoreFn) (out : Option (List Nat)) (outlen : Nat)
    (pwd_in : Option (List Nat)) (inlen : Nat) (salt : Option (List Nat))
    (saltlen : Nat) (t_cost : Nat) (m_cost : Nat) : Int :=
  Argon2Core (PHS_context out outlen pwd_in inlen salt saltlen t_cost m_cost)
    Argon2_type.Argon2_d

/-- `Argon2d` from `argon2.c`: `return Argon2Core(context, Argon2_d);`. -/
def Argon2d (Argon2Core : CoreFn) (context : Argon2_Context) : Int :=
  Argon2Core context Argon2_type.Argon2_d

/-- `Argon2i` from `argon2.c`: `return Argon2Core(context, Argon2_i);`. -/
def Argon2i (Argon2Core : CoreFn) (context : Argon2_Context) : Int :=
  Argon2Core context Argon2_type.Argon2_i

/-- `Argon2di` from `argon2.c`: `return Argon2Core(context, Argon2_di);`. -/
def Argon2di (Argon2Core : CoreFn) (context : Argon2_Context) : Int :=
  Argon2Core context Argon2_type.Argon2_di

/-- `Argon2id` from `argon2.c`: `return Argon2Core(context, Argon2_id);`. -/
def Argon2id (Argon2Core : CoreFn) (context : Argon2_Context) : Int :=
  Argon2Core context Argon2_type.Argon2_id

/-- `Argon2ds` from `argon2.c`: `return Argon2Core(context, Argon2_ds);`. -/
def Argon2ds (Argon2Core : CoreFn) (context : Argon2_Context) : Int :=
  Argon2Core context Argon2_type.Argon2_ds

/-! ## The test harness (Source/Test/argon2-test.c) -/

/-- The context built by `GenerateTestVectors` in `argon2-test.c`:
password = 32 bytes of `0x01`, salt = 16 bytes of `0x02`, secret = 8
bytes of `0x03`, associated data = 12 bytes of `0x04`, `outlen = 32`,
`t_cost = 3`, `m_cost = 16`, `lanes = 4`, `NULL` allocator callbacks, and
all three wipe flags false.  The `out` array is an uninitialized stack
buffer, so its initial contents is a parameter. -/
def generateTestVectorsContext (outBuf : List Nat) : Argon2_Context :=
  { out := some outBuf
    outlen := 32
    pwd := some (List.replicate 32 1)
    pwdlen := 32
    salt := some (List.replicate 16 2)
    saltlen := 16
    secret := some (List.replicate 8 3)
    secretlen := 8
    ad := some (List.replicate 12 4)
    adlen := 12
    t_cost := 3
    m_cost := 16
    lanes := 4
    allocate_cbk := none
    free_cbk := none
    clear_password := false
    clear_secret := false
    clear_memory := false }

/-- The dispatch of `GenerateTestVectors` in `argon2-test.c`: the `strcmp`
chain over the type string, each branch invoking one of the five entry
points on the test context (`none` for an unrecognised string).  The
branch for `"Argon2di"` invokes `Argon2i`, exactly as in the source. -/
def GenerateTestVectors (Argon2Core : CoreFn) (outBuf : List Nat)
    (ty : String) : Option Int :=
  let context := generateTestVectorsContext outBuf
  if ty = "Argon2d" then some (Argon2d Argon2Core context)
  else if ty = "Argon2i" then some (Argon2i Argon2Core context)
  else if ty = "Argon2di" then some (Argon2i Argon2Core context)
  else if ty = "Argon2ds" then some (Argon2ds Argon2Core context)
  else if ty = "Argon2id" then some (Argon2id Argon2Core context)
  else none

/-! ## Blocks and the address generator

`GenerateAddresses` and the compression function `G` (`FillBlock`) are
defined in `argon2-core.c`, which is not among the sources; their
structure below is modelled from the spec, with the constants taken from
`argon2-core.h`. -/

/-- A memory block: 1024 bytes viewed as 128 unsigned 64-bit words.  Per
the comment in `argon2-core.h`, internal words are accessed with no
bounds checking, so the block is a total function on word indices; only
indices below `WORDS_IN_BLOCK` are meaningful. -/
def block : Type := Nat → Nat

/-- The all-zero block. -/
def zeroBlock : block := fun _ => 0

/-- The low 32-bit half `J1` of a 64-bit pseudo-random word. -/
def J1 (w : Nat) : Nat := w % 2 ^ 32

/-- The high 32-bit half `J2` of a 64-bit pseudo-random word. -/
def J2 (w : Nat) : Nat := w / 2 ^ 32 % 2 ^ 32

/-- Modelled from the spec: the input block of the address generator,
encoding `(pass, lane, slice, memory_blocks, passes, type, counter)` in
the first seven little-endian 64-bit words, the remaining words zero
(`GenerateAddresses` lives in `argon2-core.c`, absent from the
sources). -/
def addressInputBlock (pass lane slice memory_blocks passes ty counter : Nat) :
    block :=
  fun w =>
    if w = 0 then pass
    else if w = 1 then lane
    else if w = 2 then slice
    else if w = 3 then memory_blocks
    else if w = 4 then passes
    else if w = 5 then ty
    else if w = 6 then counter
    else 0

/-- Modelled from the spec: the fresh address block
`A = G(0, G(0, input_block))` for a given counter value, over an abstract
compression function `G` (whose body, `FillBlock` in `argon2-core.c`, is
absent from the sources). -/
def addressBlock (G : block → block → block)
    (pass lane slice memory_blocks passes ty counter : Nat) : block :=
  G zeroBlock (G zeroBlock
    (addressInputBlock pass lane slice memory_blocks passes ty counter))

/-- Modelled from the spec: the loop state of `GenerateAddresses` after
the refresh step of iteration `i - 1` — the counter (initially `0`) and
the current address block (initially irrelevant, taken as zero).  At the
top of iteration `i`, whenever `i % ADDRESSES_IN_BLOCK = 0` the counter
is incremented and the address block recomputed from the updated input
block; `ADDRESSES_IN_BLOCK` is, per its comment in `argon2-core.h`, the
number of pseudo-random values one such call yields. -/
def genAddrState (G : block → block → block)
    (pass lane slice memory_blocks passes ty : Nat) : Nat → Nat × block
  | 0 => (0, zeroBlock)
  | i + 1 =>
    if i % ADDRESSES_IN_BLOCK = 0 then
      ((genAddrState G pass lane slice memory_blocks passes ty i).1 + 1,
        addressBlock G pass lane slice memory_blocks passes ty
          ((genAddrState G pass lane slice memory_blocks passes ty i).1 + 1))
    else genAddrState G pass lane slice memory_blocks passes ty i

/-- Modelled from the spec: the `i`-th 64-bit pseudo-random value the
address generator stores into `pseudo_rands` — word
`i % ADDRESSES_IN_BLOCK` of the address block current during iteration
`i`. -/
def pseudoRand (G : block → block → block)
    (pass lane slice memory_blocks passes ty : Nat) (i : Nat) : Nat :=
  (genAddrState G pass lane slice memory_blocks passes ty (i + 1)).2
    (i % ADDRESSES_IN_BLOCK)

/-! ## S-box lookups of the Argon2_ds extension -/

/-- Modelled from the spec: the first S-box lookup index of one injection
round of the `Argon2_ds` extension of `FillBlock` (in `argon2-core.c`,
absent from the sources): the low 32-bit half of the state-derived 64-bit
word, masked with `SBOX_MASK` from `argon2-core.h`, selecting in the
lower half of the table. -/
def sboxIndex1 (x : Nat) : Nat := (x % 2 ^ 32) &&& SBOX_MASK

/-- Modelled from the spec: the second S-box lookup index of one
injection round: the high 32-bit half masked with `SBOX_MASK`, offset by
`SBOX_SIZE / 2` into the upper half of the table. -/
def sboxIndex2 (x : Nat) : Nat :=
  ((x / 2 ^ 32 % 2 ^ 32) &&& SBOX_MASK) + SBOX_SIZE / 2

/-- Modelled from the spec: the number of S-box injection rounds of the
`Argon2_ds` extension of the compression function. -/
def SBOX_INJECTION_ROUNDS : Nat := 32

/-! ## The pre-hash H0 -/

/-- Modelled from the spec: the sequence of little-endian 32-bit scalar
fields hashed by `InitialHash` (in `argon2-core.c`, absent from the
sources) into `H0`, in order: `lanes`, `outlen`, `m_cost`, `t_cost`, the
version tag, the variant selector, then each input length (the variable
byte strings themselves are interleaved after their lengths and carry no
scalar value). -/
def initialHashFields (context : Argon2_Context) (ty : Argon2_type) : List Nat :=
  [ context.lanes, context.outlen, context.m_cost, context.t_cost,
    VERSION_NUMBER, ty.val, context.pwdlen, context.saltlen,
    context.secretlen, context.adlen ]

/-! ## Theorems -/

/-- Closed form of the address-generator loop state: after the refresh
step of iteration `i`, the counter is `i / ADDRESSES_IN_BLOCK + 1` and
the current address block is the one computed from that counter. -/
theorem genAddrState_closed (G : block → block → block)
    (pass lane slice memory_blocks passes ty : Nat) (i : Nat) :
    genAddrState G pass lane slice memory_blocks passes ty (i + 1) =
      (i / ADDRESSES_IN_BLOCK + 1,
        addressBlock G pass lane slice memory_blocks passes ty
          (i / ADDRESSES_IN_BLOCK + 1)) := by
  have hA : ADDRESSES_IN_BLOCK = 128 := rfl
  induction i with
  | zero =>
    simp [genAddrState, hA]
  | succ i ih =>
    rw [genAddrState, ih]
    by_cases h : (i + 1) % ADDRESSES_IN_BLOCK = 0
    · have hq : (i + 1) / ADDRESSES_IN_BLOCK = i / ADDRESSES_IN_BLOCK + 1 := by
        rw [hA] at h ⊢
        omega
      simp only [if_pos h, hq]
    · have hq : (i + 1) / ADDRESSES_IN_BLOCK = i / ADDRESSES_IN_BLOCK := by
        rw [hA] at h ⊢
        omega
      simp only [if_neg h, hq]

/-- C1 (amended): in the address generator for the data-independent
variants, one fresh address block `A = G(0, G(0, input_block))` is
produced per `ADDRESSES_IN_BLOCK = WORDS_IN_BLOCK = 128` blocks of a
segment (not per `WORDS_IN_BLOCK / 2 = 64`); for every block index `i`
in the segment, the 64-bit pseudo-random value is word
`i mod 128` of the current address block, whose 32-bit halves are
`(J1, J2)`, so a single address block supplies exactly 128 consecutive
`(J1, J2)` pairs before a new one is generated. -/
theorem C1_address_block_supplies_128_pairs (G : block → block → block)
    (pass lane slice memory_blocks passes ty i : Nat) :
    ADDRESSES_IN_BLOCK = WORDS_IN_BLOCK ∧
    ADDRESSES_IN_BLOCK = 128 ∧
    pseudoRand G pass lane slice memory_blocks passes ty i =
      addressBlock G pass lane slice memory_blocks passes ty
        (i / ADDRESSES_IN_BLOCK + 1) (i % ADDRESSES_IN_BLOCK) ∧
    J1 (pseudoRand G pass lane slice memory_blocks passes ty i) =
      J1 (addressBlock G pass lane slice memory_blocks passes ty
        (i / ADDRESSES_IN_BLOCK + 1) (i % ADDRESSES_IN_BLOCK)) ∧
    J2 (pseudoRand G pass lane slice memory_blocks passes ty i) =
      J2 (addressBlock G pass lane slice memory_blocks passes ty
        (i / ADDRESSES_IN_BLOCK + 1) (i % ADDRESSES_IN_BLOCK)) := by
  have h : pseudoRand G pass lane slice memory_blocks passes ty i =
      addressBlock G pass lane slice memory_blocks passes ty
        (i / ADDRESSES_IN_BLOCK + 1) (i % ADDRESSES_IN_BLOCK) := by
    unfold pseudoRand
    rw [genAddrState_closed]
  exact ⟨rfl, rfl, h, by rw [h], by rw [h]⟩

/-- C1 counterexample: with the compression function modelled by the
concrete `fun _ y w => y w + 1` and position
`(pass, lane, slice) = (1, 0, 0)`, `memory_blocks = 16`, `passes = 3`,
`type = 1`, the pseudo-random value for block index `64` is not word
`64 mod 64 = 0` of a fresh second address block
(`counter = 64 / (WORDS_IN_BLOCK / 2) + 1 = 2`) as the claim states: the
generator is still on its first address block at index 64. -/
theorem C1_counterexample :
    pseudoRand (fun _ y w => y w + 1) 1 0 0 16 3 1 64 ≠
      addressBlock (fun _ y w => y w + 1) 1 0 0 16 3 1
        (64 / (WORDS_IN_BLOCK / 2) + 1) (64 % (WORDS_IN_BLOCK / 2)) := by
  decide

set_option maxRecDepth 4096 in
/-- Every natural below `512` is fixed by masking with `SBOX_MASK = 511`. -/
theorem land_SBOX_MASK_of_lt : ∀ n < 512, n &&& SBOX_MASK = n := by decide

/-- C2 (amended): in the `Argon2_ds` extension of the compression
function, each of the 32 injection rounds reads two 64-bit words from an
S-box of `SBOX_SIZE = 1024` words; each lookup index is formed from the
low `log₂(SBOX_SIZE) − 1 = 9` bits (`SBOX_MASK = SBOX_SIZE / 2 − 1 =
511`) of one 32-bit half of a state-derived 64-bit word, the first
lookup selecting in the lower half of the table and the second offset by
`SBOX_SIZE / 2` into the upper half; jointly, every one of the 1024
table words is reachable by some lookup index. -/
theorem C2_sbox_indices_cover_table :
    SBOX_SIZE = 1024 ∧
    SBOX_MASK = 511 ∧
    SBOX_INJECTION_ROUNDS = 32 ∧
    (∀ x : Nat, sboxIndex1 x < SBOX_SIZE / 2 ∧
      SBOX_SIZE / 2 ≤ sboxIndex2 x ∧ sboxIndex2 x < SBOX_SIZE) ∧
    (∀ j : Fin SBOX_SIZE, ∃ x : Nat,
      sboxIndex1 x = j.val ∨ sboxIndex2 x = j.val) := by
  refine ⟨rfl, rfl, rfl, ?_, ?_⟩
  · intro x
    have h1 : (x % 2 ^ 32) &&& SBOX_MASK ≤ SBOX_MASK := Nat.and_le_right
    have h2 : (x / 2 ^ 32 % 2 ^ 32) &&& SBOX_MASK ≤ SBOX_MASK := Nat.and_le_right
    have hm : SBOX_MASK = 511 := rfl
    have hs : SBOX_SIZE = 1024 := rfl
    unfold sboxIndex1 sboxIndex2
    omega
  · intro j
    have hj : j.val < 1024 := j.isLt
    by_cases h : j.val < 512
    · refine ⟨j.val, Or.inl ?_⟩
      unfold sboxIndex1
      rw [Nat.mod_eq_of_lt (by omega)]
      exact land_SBOX_MASK_of_lt j.val h
    · refine ⟨(j.val - 512) * 2 ^ 32, Or.inr ?_⟩
      unfold sboxIndex2
      have hdiv : (j.val - 512) * 2 ^ 32 / 2 ^ 32 = j.val - 512 :=
        Nat.mul_div_cancel _ (by norm_num)
      rw [hdiv, Nat.mod_eq_of_lt (by omega),
        land_SBOX_MASK_of_lt (j.val - 512) (by omega)]
      have hs : SBOX_SIZE = 1024 := rfl
      omega

/-- C2 counterexample: the claim says a lookup index is the low
`log₂(SBOX_SIZE) = 10` bits of the state-derived word; at the concrete
word `512`, the low 10 bits are `512 % 2 ^ 10 = 512`, but the index the
source's mask produces is `512 &&& SBOX_MASK = 0`, because
`SBOX_MASK = SBOX_SIZE / 2 − 1` keeps only 9 bits. -/
theorem C2_counterexample :
    SBOX_SIZE = 2 ^ 10 ∧
    sboxIndex1 512 ≠ 512 % 2 ^ 10 ∧
    SBOX_MASK ≠ 2 ^ 10 - 1 := by
  decide

/-- C3: in the test harness, the `"Argon2di"` test-generation path of
`GenerateTestVectors` invokes the `Argon2i` entry point on the
constructed context, not the `Argon2di` entry point: the result is
`Argon2i` applied to the test context for every core function, and for
the concrete core that returns the variant selector value it differs
from what invoking `Argon2di` would have produced. -/
theorem C3_test_harness_di_path_calls_Argon2i :
    (∀ (Argon2Core : CoreFn) (outBuf : List Nat),
      GenerateTestVectors Argon2Core outBuf "Argon2di" =
        some (Argon2i Argon2Core (generateTestVectorsContext outBuf))) ∧
    GenerateTestVectors (fun _ t => (t.val : Int)) [] "Argon2di" ≠
      some (Argon2di (fun _ t => (t.val : Int))
        (generateTestVectorsContext [])) := by
  constructor
  · intro Argon2Core outBuf
    rfl
  · decide

/-- C4: for every argument tuple, `PHS` forwards the eight arguments
unchanged into the context, sets `lanes = 1`, `secret = NULL` with
`secretlen = 0`, `ad = NULL` with `adlen = 0`, `clear_password = true`,
`clear_secret = true`, `clear_memory = false`, and returns the result of
`Argon2Core` on that context with variant `Argon2_d`. -/
theorem C4_PHS_defaults (Argon2Core : CoreFn) (out : Option (List Nat))
    (outlen : Nat) (pwd_in : Option (List Nat)) (inlen : Nat)
    (salt : Option (List Nat)) (saltlen : Nat) (t_cost m_cost : Nat) :
    PHS Argon2Core out outlen pwd_in inlen salt saltlen t_cost m_cost =
      Argon2Core (PHS_context out outlen pwd_in inlen salt saltlen t_cost m_cost)
        Argon2_type.Argon2_d ∧
    PHS_context out outlen pwd_in inlen salt saltlen t_cost m_cost =
      { out := out, outlen := outlen, pwd := pwd_in, pwdlen := inlen,
        salt := salt, saltlen := saltlen, secret := none, secretlen := 0,
        ad := none, adlen := 0, t_cost := t_cost, m_cost := m_cost,
        lanes := 1, allocate_cbk := none, free_cbk := none,
        clear_password := true, clear_secret := true,
        clear_memory := false } :=
  ⟨rfl, rfl⟩

/-- C5: each of the five public entry points equals `Argon2Core` applied
to its context and the matching variant selector, and the success code
`ARGON2_OK` is `0` with message `"OK"`. -/
theorem C5_entry_points_dispatch :
    (∀ (Argon2Core : CoreFn) (context : Argon2_Context),
      Argon2d Argon2Core context = Argon2Core context Argon2_type.Argon2_d ∧
      Argon2i Argon2Core context = Argon2Core context Argon2_type.Argon2_i ∧
      Argon2di Argon2Core context = Argon2Core context Argon2_type.Argon2_di ∧
      Argon2id Argon2Core context = Argon2Core context Argon2_type.Argon2_id ∧
      Argon2ds Argon2Core context = Argon2Core context Argon2_type.Argon2_ds) ∧
    ARGON2_OK = 0 ∧
    Argon2_ErrorMessage.get? ARGON2_OK = some "OK" :=
  ⟨fun _ _ => ⟨rfl, rfl, rfl, rfl, rfl⟩, rfl, rfl⟩

/-- C6: the five variant selector values of the `Argon2_type`
enumeration are exactly `Argon2_d = 0`, `Argon2_i = 1`, `Argon2_di = 2`,
`Argon2_id = 3`, `Argon2_ds = 4`. -/
theorem C6_variant_selector_values :
    Argon2_type.val Argon2_type.Argon2_d = 0 ∧
    Argon2_type.val Argon2_type.Argon2_i = 1 ∧
    Argon2_type.val Argon2_type.Argon2_di = 2 ∧
    Argon2_type.val Argon2_type.Argon2_id = 3 ∧
    Argon2_type.val Argon2_type.Argon2_ds = 4 := by
  decide

/-- C7: the version tag field used in the pre-hash `H0` is the constant
`VERSION_NUMBER = 0x10`: it is the fifth 32-bit field hashed by
`InitialHash`, for every context and variant. -/
theorem C7_version_number_in_H0 (context : Argon2_Context)
    (ty : Argon2_type) :
    VERSION_NUMBER = 0x10 ∧
    (initialHashFields context ty).get? 4 = some 0x10 :=
  ⟨rfl, rfl⟩

/-- C8: every error kind of the flat error enumeration has a fixed
human-readable message (the table has an entry at every code below
`ARGON2_ERROR_CODES_LENGTH`, and `ErrorMessage` returns exactly that
entry), and in particular the null-context kind maps to
`"Argon2_Context context is NULL"`, the unknown-variant kind to
`"There is no such version of Argon2"`, the null-output kind to
`"Output pointer is NULL"`, and success to `"OK"`. -/
theorem C8_stable_error_messages :
    (∀ c : Fin ARGON2_ERROR_CODES_LENGTH,
      ErrorMessage (Int.ofNat c.val) = Argon2_ErrorMessage.get? c.val ∧
      (Argon2_ErrorMessage.get? c.val).isSome = true) ∧
    ErrorMessage (Int.ofNat ARGON2_INCORRECT_PARAMETER) =
      some "Argon2_Context context is NULL" ∧
    ErrorMessage (Int.ofNat ARGON2_INCORRECT_TYPE) =
      some "There is no such version of Argon2" ∧
    ErrorMessage (Int.ofNat ARGON2_OUTPUT_PTR_NULL) =
      some "Output pointer is NULL" ∧
    ErrorMessage (Int.ofNat ARGON2_OK) = some "OK" := by
  refine ⟨?_, rfl, rfl, rfl, rfl⟩
  decide

/-- C9: the end-to-end test-vector scenario constructs its context with a
32-byte password of `0x01` bytes, a 16-byte salt of `0x02` bytes, an
8-byte secret of `0x03` bytes, 12 bytes of associated data of `0x04`
bytes, output length 32, `t_cost = 3`, `m_cost = 16`, `lanes = 4`, and
all three wipe flags false. -/
theorem C9_test_vector_scenario (outBuf : List Nat) :
    (generateTestVectorsContext outBuf).pwd = some (List.replicate 32 1) ∧
    (generateTestVectorsContext outBuf).pwdlen = 32 ∧
    (generateTestVectorsContext outBuf).salt = some (List.replicate 16 2) ∧
    (generateTestVectorsContext outBuf).saltlen = 16 ∧
    (generateTestVectorsContext outBuf).secret = some (List.replicate 8 3) ∧
    (generateTestVectorsContext outBuf).secretlen = 8 ∧
    (generateTestVectorsContext outBuf).ad = some (List.replicate 12 4) ∧
    (generateTestVectorsContext outBuf).adlen = 12 ∧
    (generateTestVectorsContext outBuf).outlen = 32 ∧
    (generateTestVectorsContext outBuf).t_cost = 3 ∧
    (generateTestVectorsContext outBuf).m_cost = 16 ∧
    (generateTestVectorsContext outBuf).lanes = 4 ∧
    (generateTestVectorsContext outBuf).clear_password = false ∧
    (generateTestVectorsContext outBuf).clear_secret = false ∧
    (generateTestVectorsContext outBuf).clear_memory = false :=
  ⟨rfl, rfl, rfl, rfl, rfl, rfl, rfl, rfl, rfl, rfl, rfl, rfl, rfl, rfl, rfl⟩

/-- C10: for every `error_code` with
`0 ≤ error_code < ARGON2_ERROR_CODES_LENGTH`, `ErrorMessage` returns the
corresponding entry of the message table; for every
`error_code ≥ ARGON2_ERROR_CODES_LENGTH` it returns
`"Unknown error code."`; and the bounds check does not exclude negative
codes — at `-1` the modelled table access is out of bounds (`none`), so
totality of the table indexing holds only under `0 ≤ error_code`. -/
theorem C10_ErrorMessage_bounds :
    (∀ error_code : Int, 0 ≤ error_code →
      error_code < (ARGON2_ERROR_CODES_LENGTH : Int) →
      ErrorMessage error_code = Argon2_ErrorMessage.get? error_code.toNat ∧
      (ErrorMessage error_code).isSome = true) ∧
    (∀ error_code : Int, (ARGON2_ERROR_CODES_LENGTH : Int) ≤ error_code →
      ErrorMessage error_code = some "Unknown error code.") ∧
    ErrorMessage (-1) = none := by
  refine ⟨?_, ?_, by decide⟩
  · intro e h0 hlt
    have hmsg : ErrorMessage e = Argon2_ErrorMessage.get? e.toNat := by
      unfold ErrorMessage
      rw [if_pos hlt, if_pos h0]
    refine ⟨hmsg, ?_⟩
    rw [hmsg]
    have hlen : ARGON2_ERROR_CODES_LENGTH = 28 := rfl
    have hn : e.toNat < 28 := by
      rw [hlen] at hlt
      omega
    have hsome : ∀ n < 28, (Argon2_ErrorMessage.get? n).isSome = true := by
      decide
    exact hsome e.toNat hn
  · intro e he
    unfold ErrorMessage
    rw [if_neg (by omega)]

/-- Witness for `C10_ErrorMessage_bounds`: the in-range code `3` hits the
table (and has a message), and the out-of-range code `100` yields
`"Unknown error code."`. -/
theorem C10_ErrorMessage_bounds_witness :
    (ErrorMessage 3 = Argon2_ErrorMessage.get? (3 : Int).toNat ∧
      (ErrorMessage 3).isSome = true) ∧
    ErrorMessage 100 = some "Unknown error code." :=
  ⟨C10_ErrorMessage_bounds.1 3 (by decide) (by decide),
    C10_ErrorMessage_bounds.2.1 100 (by decide)⟩
